import Mathlib

/-!
Shallow embedding of src/display.c (honggfuzz status display) and proofs of
the specification claims about it.

Modelling conventions:
* C `size_t`, `unsigned long`, `uint64_t` values are modelled as `Nat`; where
  the C code can wrap (the `curr_exec_cnt - prev_exec_cnt` subtraction, the
  `hitBB * 100` multiplication, the `(unsigned long)` cast of a time
  difference) the wrap is made explicit with `% wordSize` (`wordSize = 2^64`).
  The `uint8_t` conversion of the coverage percentage is an explicit `% 256`.
* `long double flipRate` is modelled as `Rat`; the code only compares it for
  exact equality with zero.
* Every `display_put(fmt, ...)` call site is one `Frag` constructor carrying
  the dynamic values that the format string prints; `Frag.render` produces the
  exact formatted text (ANSI escapes included) and `display_put` models the
  per-call `write` of that text (one write per call when the formatted length
  is positive).  The 4 KiB `vsnprintf` buffer truncation is not modelled; no
  claim depends on it.
* `__sync_fetch_and_add(&x, v)` is modelled by `sync_fetch_and_add`, which
  returns both the value read (`.1`) and the value stored back (`.2`).  The
  fragments read `.1`; `display_postHfuzz` applies every store (`.2`) that the
  call performs, under the same branch conditions as the source, so that
  non-mutation of the shared state is a theorem rather than a modelling
  artifact.
* `time(NULL)` and the `util_getLocalTime` formatting are environment inputs
  (`now : Int`, `start_time_str : String`).
-/

/-- Width of `size_t` / `uint64_t` on the modelled platform: 2^64. -/
def wordSize : Nat := 2 ^ 64

/-- Model of `__sync_fetch_and_add(&x, v)`: the first component is the value
the call returns (the old value), the second is the value it stores back. -/
def sync_fetch_and_add (x v : Nat) : Nat × Nat :=
  (x, (x + v) % wordSize)

/-- Wrapping `size_t` subtraction `a - b` (two's complement, width 64). -/
def subWord (a b : Nat) : Nat :=
  (wordSize + a - b) % wordSize

/-- Hardware-counter group `hfuzz->hwCnts` (fields used by display.c). -/
structure HwCnts where
  cpuInstrCnt : Nat
  cpuBranchCnt : Nat
  cpuBtsBlockCnt : Nat
  cpuBtsEdgeCnt : Nat
  cpuIptBlockCnt : Nat
  customCnt : Nat
deriving Repr, DecidableEq

/-- Sanitizer-coverage group `hfuzz->sanCovCnts` (fields used by display.c). -/
structure SanCovCnts where
  hitBBCnt : Nat
  totalBBCnt : Nat
  iDsoCnt : Nat
  newBBCnt : Nat
  crashesCnt : Nat
deriving Repr, DecidableEq

/-- The fields of `honggfuzz_t` that display.c reads.  `flipRate` is a C
`long double`, modelled as `Rat` (the code only tests it for equality with
zero); `pid` is a C `int`, modelled as `Int`. -/
structure Honggfuzz where
  timeStart : Int
  mutationsCnt : Nat
  mutationsMax : Nat
  inputFile : String
  cmdline_txt : String
  pid : Int
  pidCmd : String
  threadsMax : Nat
  flipRate : Rat
  useVerifier : Bool
  fileCnt : Nat
  crashesCnt : Nat
  uniqueCrashesCnt : Nat
  blCrashesCnt : Nat
  verifiedCrashesCnt : Nat
  timeoutedCnt : Nat
  dynFileMethod : Nat
  useSanCov : Bool
  dynamicFileBestSz : Nat
  maxFileSz : Nat
  dynFileIterExpire : Nat
  hwCnts : HwCnts
  sanCovCnts : SanCovCnts
deriving Repr, DecidableEq

/-- Modelled from the spec: `_HF_DYNFILE_NONE` comes from common.h, which is
not under src/; the feedback-method field is a bitmask and `NONE` is zero. -/
def _HF_DYNFILE_NONE : Nat := 0x0

/-- Modelled from the spec: bit for hardware instruction counting (common.h
is not under src/; the claims depend only on the bits being distinct). -/
def _HF_DYNFILE_INSTR_COUNT : Nat := 0x1

/-- Modelled from the spec: bit for hardware branch counting. -/
def _HF_DYNFILE_BRANCH_COUNT : Nat := 0x2

/-- Modelled from the spec: bit for BTS unique-block tracing. -/
def _HF_DYNFILE_BTS_BLOCK : Nat := 0x8

/-- Modelled from the spec: bit for BTS unique-edge tracing. -/
def _HF_DYNFILE_BTS_EDGE : Nat := 0x10

/-- Modelled from the spec: bit for Intel PT unique-block tracing. -/
def _HF_DYNFILE_IPT_BLOCK : Nat := 0x20

/-- Modelled from the spec: bit for the custom counter. -/
def _HF_DYNFILE_CUSTOM : Nat := 0x40

/-- Modelled from the spec: `_HF_MAX_DYNFILE_ITER` from common.h (not under
src/), the configured maximum of the seed-expiry counter; it is only
displayed, so its exact value does not affect any claim. -/
def _HF_MAX_DYNFILE_ITER : Nat := 0x2000

def ESC_CLEAR : String := "\x1b[H\x1b[2J"
def ESC_BOLD : String := "\x1b[1m"
def ESC_RESET : String := "\x1b[0m"

/-- One fragment per `display_put` call site of `display_displayLocked`,
carrying the dynamic values that the call formats, in source order. -/
inductive Frag where
  | clear
  | statBanner
  | iterations (cnt : Nat)
  | iterationsMax (maxv : Nat)
  | newline
  | startTime (s : String) (elapsed : Nat)
  | inputFile (f : String)
  | fuzzedCmd (c : String)
  | remoteCmd (pid : Int) (cmd : String)
  | fuzzingThreads (n : Nat)
  | execsPerSec (rate : Nat) (avg : Nat)
  | inputFiles (cnt : Nat)
  | crashes (total uniq bl verified : Nat)
  | timeouts (n : Nat)
  | dynFileSize (sz maxSz : Nat)
  | dynFileIter (expire maxIter : Nat)
  | coverageHdr
  | cpuInstr (n : Nat)
  | cpuBranch (n : Nat)
  | btsBlock (n : Nat)
  | btsEdge (n : Nat)
  | iptBlock (n : Nat)
  | customCnt (n : Nat)
  | sanCovBB (hit : Nat) (covPer : Nat)
  | sanCovDso (n : Nat)
  | sanCovNewBB (n : Nat)
  | sanCovCrashes (n : Nat)
  | logsBanner
deriving Repr, DecidableEq

/-- The formatted text of each `display_put` call, transcribed from the format
strings of display.c (`%zu`/`%lu`/`PRIu64`/`%d` print decimal). -/
def Frag.render : Frag → String
  | .clear => ESC_CLEAR
  | .statBanner => "============================== STAT ==============================\n"
  | .iterations cnt => "Iterations: " ++ ESC_BOLD ++ toString cnt ++ ESC_RESET
  | .iterationsMax maxv => " (out of: " ++ ESC_BOLD ++ toString maxv ++ ESC_RESET ++ ")"
  | .newline => "\n"
  | .startTime s elapsed =>
      "Start time: " ++ ESC_BOLD ++ s ++ ESC_RESET ++ " (" ++ ESC_BOLD ++
      toString elapsed ++ ESC_RESET ++ " seconds elapsed)\n"
  | .inputFile f => "Input file/dir: \x27" ++ ESC_BOLD ++ f ++ ESC_RESET ++ "\x27\n"
  | .fuzzedCmd c => "Fuzzed cmd: \x27" ++ ESC_BOLD ++ c ++ ESC_RESET ++ "\x27\n"
  | .remoteCmd pid cmd =>
      "Remote cmd [" ++ ESC_BOLD ++ toString pid ++ ESC_RESET ++ "]: \x27" ++
      ESC_BOLD ++ cmd ++ ESC_RESET ++ "\x27\n"
  | .fuzzingThreads n => "Fuzzing threads: " ++ ESC_BOLD ++ toString n ++ ESC_RESET ++ "\n"
  | .execsPerSec rate avg =>
      "Execs per second: " ++ ESC_BOLD ++ toString rate ++ ESC_RESET ++
      " (avg: " ++ ESC_BOLD ++ toString avg ++ ESC_RESET ++ ")\n"
  | .inputFiles cnt => "Input Files: \x27" ++ ESC_BOLD ++ toString cnt ++ ESC_RESET ++ "\x27\n"
  | .crashes total uniq bl verified =>
      "Crashes: " ++ ESC_BOLD ++ toString total ++ ESC_RESET ++
      " (unique: " ++ ESC_BOLD ++ toString uniq ++ ESC_RESET ++
      ", blacklist: " ++ ESC_BOLD ++ toString bl ++ ESC_RESET ++
      ", verified: " ++ ESC_BOLD ++ toString verified ++ ESC_RESET ++ ") \n"
  | .timeouts n => "Timeouts: " ++ ESC_BOLD ++ toString n ++ ESC_RESET ++ "\n"
  | .dynFileSize sz maxSz =>
      "Dynamic file size: " ++ ESC_BOLD ++ toString sz ++ ESC_RESET ++
      " (max: " ++ ESC_BOLD ++ toString maxSz ++ ESC_RESET ++ ")\n"
  | .dynFileIter expire maxIter =>
      "Dynamic file max iterations keep for chosen seed (" ++ ESC_BOLD ++
      toString expire ++ ESC_RESET ++ "/" ++ ESC_BOLD ++
      toString maxIter ++ ESC_RESET ++ ")\n"
  | .coverageHdr => "Coverage (max):\n"
  | .cpuInstr n => "  - cpu instructions:      " ++ ESC_BOLD ++ toString n ++ ESC_RESET ++ "\n"
  | .cpuBranch n => "  - cpu branches:          " ++ ESC_BOLD ++ toString n ++ ESC_RESET ++ "\n"
  | .btsBlock n => "  - BTS unique blocks: " ++ ESC_BOLD ++ toString n ++ ESC_RESET ++ "\n"
  | .btsEdge n => "  - BTS unique edges:   " ++ ESC_BOLD ++ toString n ++ ESC_RESET ++ "\n"
  | .iptBlock n => "  - PT unique blocks: " ++ ESC_BOLD ++ toString n ++ ESC_RESET ++ "\n"
  | .customCnt n => "  - custom counter:        " ++ ESC_BOLD ++ toString n ++ ESC_RESET ++ "\n"
  | .sanCovBB hit covPer =>
      "  - total hit #bb:  " ++ ESC_BOLD ++ toString hit ++ ESC_RESET ++
      " (coverage " ++ toString covPer ++ "%)\n"
  | .sanCovDso n =>
      "  - total #dso:     " ++ ESC_BOLD ++ toString n ++ ESC_RESET ++ " (instrumented only)\n"
  | .sanCovNewBB n =>
      "  - discovered #bb: " ++ ESC_BOLD ++ toString n ++ ESC_RESET ++ " (new from input seed)\n"
  | .sanCovCrashes n => "  - crashes:        " ++ ESC_BOLD ++ toString n ++ ESC_RESET ++ "\n"
  | .logsBanner => "============================== LOGS ==============================\n"

/-- Model of `display_put`: formats its arguments and, when the formatted
length is positive, performs exactly one `write` of the formatted text
(returned as the list of writes the call makes). -/
def display_put (s : String) : List String :=
  if s.length = 0 then [] else [s]

/-- Line 62: `(unsigned long)(time(NULL) - hfuzz->timeStart)`. -/
def elapsedOf (now : Int) (h : Honggfuzz) : Nat :=
  ((now - h.timeStart) % (wordSize : Int)).toNat

/-- Lines 71-73: clamp the raw counter to `mutationsMax` when a positive cap
is configured and the counter is above it. -/
def clampExec (mutationsMax cnt : Nat) : Nat :=
  if mutationsMax > 0 ∧ cnt > mutationsMax then mutationsMax else cnt

/-- Line 64 and lines 71-73: the atomic read of `mutationsCnt` followed by
the clamp; this is the iteration count the rest of the call uses. -/
def curr_exec_cnt (h : Honggfuzz) : Nat :=
  clampExec h.mutationsMax (sync_fetch_and_add h.mutationsCnt 0).1

/-- Line 75: `uintptr_t exec_per_sec = curr_exec_cnt - prev_exec_cnt` on
unsigned machine words. -/
def exec_per_sec (h : Honggfuzz) (prev_exec_cnt : Nat) : Nat :=
  subWord (curr_exec_cnt h) prev_exec_cnt

/-- Line 101: `elapsed ? (curr_exec_cnt / elapsed) : 0`. -/
def avgExecPerSec (now : Int) (h : Honggfuzz) : Nat :=
  if elapsedOf now h ≠ 0 then curr_exec_cnt h / elapsedOf now h else 0

/-- Line 157: `uint8_t covPer = totalBB ? ((hitBB * 100) / totalBB) : 0;`.
The multiplication is on `uint64_t` (hence `% wordSize`) and the conversion
to `uint8_t` truncates to 8 bits (hence `% 256`). -/
def covPercent (hitBB totalBB : Nat) : Nat :=
  (if totalBB ≠ 0 then (hitBB * 100 % wordSize) / totalBB else 0) % 256

/-- Lines 78-167: the sequence of `display_put` calls that one
`display_displayLocked` invocation makes, in source order, one `Frag` per
call, guarded by the same conditions as the source. -/
def display_frags (now : Int) (start_time_str : String) (h : Honggfuzz)
    (prev_exec_cnt : Nat) : List Frag :=
  [Frag.clear, Frag.statBanner, Frag.iterations (curr_exec_cnt h)]
  ++ (if h.mutationsMax ≠ 0 then [Frag.iterationsMax h.mutationsMax] else [])
  ++ [Frag.newline,
      Frag.startTime start_time_str (elapsedOf now h),
      Frag.inputFile h.inputFile,
      Frag.fuzzedCmd h.cmdline_txt]
  ++ (if h.pid > 0 then [Frag.remoteCmd h.pid h.pidCmd] else [])
  ++ [Frag.fuzzingThreads h.threadsMax,
      Frag.execsPerSec (exec_per_sec h prev_exec_cnt) (avgExecPerSec now h)]
  ++ (if h.flipRate = 0 ∧ h.useVerifier = true then [Frag.inputFiles h.fileCnt] else [])
  ++ [Frag.crashes (sync_fetch_and_add h.crashesCnt 0).1
        (sync_fetch_and_add h.uniqueCrashesCnt 0).1
        (sync_fetch_and_add h.blCrashesCnt 0).1
        (sync_fetch_and_add h.verifiedCrashesCnt 0).1,
      Frag.timeouts (sync_fetch_and_add h.timeoutedCnt 0).1]
  ++ (if h.dynFileMethod ≠ _HF_DYNFILE_NONE ∨ h.useSanCov = true then
        [Frag.dynFileSize h.dynamicFileBestSz h.maxFileSz,
         Frag.dynFileIter (sync_fetch_and_add h.dynFileIterExpire 0).1 _HF_MAX_DYNFILE_ITER,
         Frag.coverageHdr]
      else [])
  ++ (if h.dynFileMethod &&& _HF_DYNFILE_INSTR_COUNT ≠ 0 then
        [Frag.cpuInstr (sync_fetch_and_add h.hwCnts.cpuInstrCnt 0).1] else [])
  ++ (if h.dynFileMethod &&& _HF_DYNFILE_BRANCH_COUNT ≠ 0 then
        [Frag.cpuBranch (sync_fetch_and_add h.hwCnts.cpuBranchCnt 0).1] else [])
  ++ (if h.dynFileMethod &&& _HF_DYNFILE_BTS_BLOCK ≠ 0 then
        [Frag.btsBlock (sync_fetch_and_add h.hwCnts.cpuBtsBlockCnt 0).1] else [])
  ++ (if h.dynFileMethod &&& _HF_DYNFILE_BTS_EDGE ≠ 0 then
        [Frag.btsEdge (sync_fetch_and_add h.hwCnts.cpuBtsEdgeCnt 0).1] else [])
  ++ (if h.dynFileMethod &&& _HF_DYNFILE_IPT_BLOCK ≠ 0 then
        [Frag.iptBlock (sync_fetch_and_add h.hwCnts.cpuIptBlockCnt 0).1] else [])
  ++ (if h.dynFileMethod &&& _HF_DYNFILE_CUSTOM ≠ 0 then
        [Frag.customCnt (sync_fetch_and_add h.hwCnts.customCnt 0).1] else [])
  ++ (if h.useSanCov = true then
        [Frag.sanCovBB (sync_fetch_and_add h.sanCovCnts.hitBBCnt 0).1
           (covPercent (sync_fetch_and_add h.sanCovCnts.hitBBCnt 0).1
             (sync_fetch_and_add h.sanCovCnts.totalBBCnt 0).1),
         Frag.sanCovDso (sync_fetch_and_add h.sanCovCnts.iDsoCnt 0).1,
         Frag.sanCovNewBB (sync_fetch_and_add h.sanCovCnts.newBBCnt 0).1,
         Frag.sanCovCrashes (sync_fetch_and_add h.sanCovCnts.crashesCnt 0).1]
      else [])
  ++ [Frag.logsBanner]

/-- The shared `honggfuzz_t` state after one `display_displayLocked` call:
every `__sync_fetch_and_add(&x, 0UL)` that the call executes stores
`(x + 0) mod 2^64` back, under the same branch conditions as the source; no
other field is written. -/
def display_postHfuzz (h : Honggfuzz) : Honggfuzz :=
  { h with
    mutationsCnt := (sync_fetch_and_add h.mutationsCnt 0).2
    crashesCnt := (sync_fetch_and_add h.crashesCnt 0).2
    uniqueCrashesCnt := (sync_fetch_and_add h.uniqueCrashesCnt 0).2
    blCrashesCnt := (sync_fetch_and_add h.blCrashesCnt 0).2
    verifiedCrashesCnt := (sync_fetch_and_add h.verifiedCrashesCnt 0).2
    timeoutedCnt :=
      (sync_fetch_and_add h.timeoutedCnt 0).2
    dynFileIterExpire :=
      if h.dynFileMethod ≠ _HF_DYNFILE_NONE ∨ h.useSanCov = true then
        (sync_fetch_and_add h.dynFileIterExpire 0).2
      else h.dynFileIterExpire
    hwCnts := { h.hwCnts with
      cpuInstrCnt :=
        if h.dynFileMethod &&& _HF_DYNFILE_INSTR_COUNT ≠ 0 then
          (sync_fetch_and_add h.hwCnts.cpuInstrCnt 0).2
        else h.hwCnts.cpuInstrCnt
      cpuBranchCnt :=
        if h.dynFileMethod &&& _HF_DYNFILE_BRANCH_COUNT ≠ 0 then
          (sync_fetch_and_add h.hwCnts.cpuBranchCnt 0).2
        else h.hwCnts.cpuBranchCnt
      cpuBtsBlockCnt :=
        if h.dynFileMethod &&& _HF_DYNFILE_BTS_BLOCK ≠ 0 then
          (sync_fetch_and_add h.hwCnts.cpuBtsBlockCnt 0).2
        else h.hwCnts.cpuBtsBlockCnt
      cpuBtsEdgeCnt :=
        if h.dynFileMethod &&& _HF_DYNFILE_BTS_EDGE ≠ 0 then
          (sync_fetch_and_add h.hwCnts.cpuBtsEdgeCnt 0).2
        else h.hwCnts.cpuBtsEdgeCnt
      cpuIptBlockCnt :=
        if h.dynFileMethod &&& _HF_DYNFILE_IPT_BLOCK ≠ 0 then
          (sync_fetch_and_add h.hwCnts.cpuIptBlockCnt 0).2
        else h.hwCnts.cpuIptBlockCnt
      customCnt :=
        if h.dynFileMethod &&& _HF_DYNFILE_CUSTOM ≠ 0 then
          (sync_fetch_and_add h.hwCnts.customCnt 0).2
        else h.hwCnts.customCnt }
    sanCovCnts :=
      if h.useSanCov = true then
        { hitBBCnt := (sync_fetch_and_add h.sanCovCnts.hitBBCnt 0).2
          totalBBCnt := (sync_fetch_and_add h.sanCovCnts.totalBBCnt 0).2
          iDsoCnt := (sync_fetch_and_add h.sanCovCnts.iDsoCnt 0).2
          newBBCnt := (sync_fetch_and_add h.sanCovCnts.newBBCnt 0).2
          crashesCnt := (sync_fetch_and_add h.sanCovCnts.crashesCnt 0).2 }
      else h.sanCovCnts }

/-- Result of one `display_displayLocked` call: the shared state after the
call, the new value of the static `prev_exec_cnt`, and the emitted
fragments. -/
structure RenderResult where
  hfuzz : Honggfuzz
  prev_exec_cnt : Nat
  frags : List Frag
deriving Repr, DecidableEq

/-- One `display_displayLocked(hfuzz)` call (lines 60-168): reads the shared
counters, clamps the iteration count, computes the interval rate, updates the
static `prev_exec_cnt` to the clamped count (line 76, unconditional), and
emits one fragment per `display_put` call. -/
def display_displayLocked (now : Int) (start_time_str : String) (h : Honggfuzz)
    (prev_exec_cnt : Nat) : RenderResult :=
  { hfuzz := display_postHfuzz h
    prev_exec_cnt := curr_exec_cnt h
    frags := display_frags now start_time_str h prev_exec_cnt }

/-- `display_display` (lines 170-173) just forwards to
`display_displayLocked`. -/
def display_display (now : Int) (start_time_str : String) (h : Honggfuzz)
    (prev_exec_cnt : Nat) : RenderResult :=
  display_displayLocked now start_time_str h prev_exec_cnt

/-- The sequence of `write(STDOUT_FILENO, ...)` calls one render call makes:
each `display_put` writes its formatted text once (when non-empty). -/
def display_writes (now : Int) (start_time_str : String) (h : Honggfuzz)
    (prev_exec_cnt : Nat) : List String :=
  (display_frags now start_time_str h prev_exec_cnt).flatMap
    (fun f => display_put (Frag.render f))

/-! ### Helper lemmas -/

theorem sync_read_eq (x : Nat) : (sync_fetch_and_add x 0).1 = x := rfl

theorem sync_store_eq (x : Nat) (hx : x < wordSize) :
    (sync_fetch_and_add x 0).2 = x := by
  simp [sync_fetch_and_add, Nat.mod_eq_of_lt hx]

theorem subWord_of_le (a b : Nat) (ha : a < wordSize) (hle : b ≤ a) :
    subWord a b = a - b := by
  have hW : 0 < wordSize := by norm_num [wordSize]
  unfold subWord
  rw [show wordSize + a - b = wordSize + (a - b) by omega, Nat.add_mod_left,
    Nat.mod_eq_of_lt (by omega)]

theorem subWord_self (a : Nat) : subWord a a = 0 := by
  simp [subWord]

theorem mem_ite_nil {α : Type} (c : Prop) [Decidable c] (a : α) (l : List α) :
    (a ∈ if c then l else []) ↔ c ∧ a ∈ l := by
  split <;> simp_all

theorem execsPerSec_mem_frags (now : Int) (sts : String) (h : Honggfuzz)
    (prev : Nat) :
    Frag.execsPerSec (exec_per_sec h prev) (avgExecPerSec now h)
      ∈ (display_displayLocked now sts h prev).frags := by
  simp only [display_displayLocked, display_frags]
  simp

theorem clampExec_of_ge (m c : Nat) (hm : 0 < m) (hc : m ≤ c) :
    clampExec m c = m := by
  unfold clampExec
  rcases Nat.lt_or_ge m c with hlt | hge
  · rw [if_pos ⟨hm, hlt⟩]
  · rw [if_neg (by omega)]
    omega

theorem curr_exec_cnt_of_ge (h : Honggfuzz) (hm : 0 < h.mutationsMax)
    (hc : h.mutationsMax ≤ h.mutationsCnt) : curr_exec_cnt h = h.mutationsMax := by
  unfold curr_exec_cnt
  rw [sync_read_eq, clampExec_of_ge _ _ hm hc]

/-! ### Sample inputs used by the witness theorems -/

/-- A minimal configuration: no cap, no feedback sources, spawn mode. -/
def hBase : Honggfuzz :=
  { timeStart := 0, mutationsCnt := 5, mutationsMax := 0, inputFile := "in",
    cmdline_txt := "cmd", pid := 0, pidCmd := "", threadsMax := 2,
    flipRate := 1, useVerifier := false, fileCnt := 3, crashesCnt := 0,
    uniqueCrashesCnt := 0, blCrashesCnt := 0, verifiedCrashesCnt := 0,
    timeoutedCnt := 0, dynFileMethod := 0, useSanCov := false,
    dynamicFileBestSz := 0, maxFileSz := 0, dynFileIterExpire := 0,
    hwCnts := ⟨0, 0, 0, 0, 0, 0⟩, sanCovCnts := ⟨0, 0, 0, 0, 0⟩ }

/-- The spec scenario: cap 1000, raw counter 1200. -/
def hCap : Honggfuzz :=
  { hBase with mutationsMax := 1000, mutationsCnt := 1200 }

/-! ### C1 -/

/-- C1: when a positive cap is configured and the raw counter read from the
shared stats exceeds it, the iteration count used for display and for the
rate computation is the cap itself (the `Frag.iterations` fragment shows the
cap), and the shared counter is left unchanged by the call. -/
theorem clamp_display_at_cap (now : Int) (sts : String) (h : Honggfuzz)
    (prev : Nat) (hmax : 0 < h.mutationsMax)
    (hover : h.mutationsMax < h.mutationsCnt) (hb : h.mutationsCnt < wordSize) :
    curr_exec_cnt h = h.mutationsMax ∧
    exec_per_sec h prev = subWord h.mutationsMax prev ∧
    Frag.iterations h.mutationsMax ∈ (display_displayLocked now sts h prev).frags ∧
    (display_displayLocked now sts h prev).hfuzz.mutationsCnt = h.mutationsCnt := by
  have hcur : curr_exec_cnt h = h.mutationsMax :=
    curr_exec_cnt_of_ge h hmax (le_of_lt hover)
  refine ⟨hcur, by rw [exec_per_sec, hcur], ?_, ?_⟩
  · simp only [display_displayLocked, display_frags, ← hcur]
    simp
  · simp [display_displayLocked, display_postHfuzz, sync_store_eq _ hb]

/-- Witness for C1 at the spec scenario (cap 1000, raw 1200). -/
theorem clamp_display_at_cap_witness :
    0 < hCap.mutationsMax ∧ hCap.mutationsMax < hCap.mutationsCnt ∧
    curr_exec_cnt hCap = 1000 ∧
    Frag.iterations 1000 ∈ (display_displayLocked 7 "t" hCap 0).frags ∧
    (display_displayLocked 7 "t" hCap 0).hfuzz.mutationsCnt = 1200 := by
  have := clamp_display_at_cap 7 "t" hCap 0 (by decide) (by decide) (by decide)
  exact ⟨by decide, by decide, this.1, this.2.2.1, this.2.2.2⟩

/-! ### C2 -/

/-- C2: the reported per-interval rate is the current clamped iteration count
minus the previously stored count (ordinary subtraction whenever the count
did not decrease), the stored previous count is unconditionally updated to
the current clamped count, and a first call (stored count still at its
initializer zero) reports a rate equal to the clamped count itself. -/
theorem rate_is_delta_and_prev_updated (now : Int) (sts : String)
    (h : Honggfuzz) (prev : Nat) :
    (display_displayLocked now sts h prev).prev_exec_cnt = curr_exec_cnt h ∧
    Frag.execsPerSec (exec_per_sec h prev) (avgExecPerSec now h)
      ∈ (display_displayLocked now sts h prev).frags ∧
    (curr_exec_cnt h < wordSize → prev ≤ curr_exec_cnt h →
      exec_per_sec h prev = curr_exec_cnt h - prev) ∧
    (curr_exec_cnt h < wordSize → exec_per_sec h 0 = curr_exec_cnt h) := by
  refine ⟨rfl, execsPerSec_mem_frags now sts h prev, ?_, ?_⟩
  · intro hb hle
    exact subWord_of_le _ _ hb hle
  · intro hb
    rw [exec_per_sec, subWord_of_le _ _ hb (Nat.zero_le _), Nat.sub_zero]

/-- Witness for C2: first call at `hBase` (raw count 5, no cap, prev 0). -/
theorem rate_is_delta_and_prev_updated_witness :
    curr_exec_cnt hBase < wordSize ∧
    (display_displayLocked 3 "t" hBase 2).prev_exec_cnt = curr_exec_cnt hBase ∧
    exec_per_sec hBase 0 = curr_exec_cnt hBase ∧
    exec_per_sec hBase 2 = curr_exec_cnt hBase - 2 := by
  have := rate_is_delta_and_prev_updated 3 "t" hBase 2
  exact ⟨by decide, this.1, this.2.2.2 (by decide),
    this.2.2.1 (by decide) (by decide)⟩

/-! ### C9 -/

/-- C9: when a positive cap is configured and the raw counter is at or above
the cap on two consecutive calls (the cap unchanged between them), the second
call reports a per-interval rate of exactly zero, however the raw counter
moved in between. -/
theorem rate_zero_while_capped (now1 now2 : Int) (s1 s2 : String)
    (h1 h2 : Honggfuzz) (prev : Nat)
    (hmax : 0 < h1.mutationsMax) (hsame : h2.mutationsMax = h1.mutationsMax)
    (hge1 : h1.mutationsMax ≤ h1.mutationsCnt)
    (hge2 : h2.mutationsMax ≤ h2.mutationsCnt) :
    exec_per_sec h2 (display_displayLocked now1 s1 h1 prev).prev_exec_cnt = 0 ∧
    Frag.execsPerSec 0 (avgExecPerSec now2 h2) ∈
      (display_displayLocked now2 s2 h2
        (display_displayLocked now1 s1 h1 prev).prev_exec_cnt).frags := by
  have hc1 : curr_exec_cnt h1 = h1.mutationsMax := curr_exec_cnt_of_ge h1 hmax hge1
  have hc2 : curr_exec_cnt h2 = h1.mutationsMax := by
    rw [curr_exec_cnt_of_ge h2 (hsame ▸ hmax) hge2, hsame]
  have hprev : (display_displayLocked now1 s1 h1 prev).prev_exec_cnt
      = h1.mutationsMax := hc1
  have hrate : exec_per_sec h2 (display_displayLocked now1 s1 h1 prev).prev_exec_cnt
      = 0 := by
    rw [exec_per_sec, hprev, hc2, subWord_self]
  refine ⟨hrate, ?_⟩
  have hm := execsPerSec_mem_frags now2 s2 h2
    (display_displayLocked now1 s1 h1 prev).prev_exec_cnt
  rwa [hrate] at hm

/-- Witness for C9: two consecutive calls at the capped scenario
(cap 1000, raw counter 1200 then 1350). -/
theorem rate_zero_while_capped_witness :
    0 < hCap.mutationsMax ∧
    exec_per_sec { hCap with mutationsCnt := 1350 }
      (display_displayLocked 1 "t" hCap 0).prev_exec_cnt = 0 := by
  have := rate_zero_while_capped 1 2 "t" "u" hCap { hCap with mutationsCnt := 1350 }
    0 (by decide) (by decide) (by decide) (by decide)
  exact ⟨by decide, this.1⟩

/-! ### C10 -/

/-- C10: the interval-rate subtraction is performed on unsigned 64-bit words
with no underflow guard: if the current clamped count is strictly below the
stored previous count, the reported rate is the two's-complement difference
`2^64 - (prev - curr)` — the value of `(curr - prev) mod 2^64` — which is
positive (near-maximal), not a negative or zero rate. -/
theorem rate_wraps_on_decrease (h : Honggfuzz) (prev : Nat)
    (hlt : curr_exec_cnt h < prev) (hp : prev < wordSize) :
    exec_per_sec h prev = wordSize - (prev - curr_exec_cnt h) ∧
    0 < exec_per_sec h prev ∧
    (exec_per_sec h prev : Int) =
      ((curr_exec_cnt h : Int) - (prev : Int)) % (wordSize : Int) := by
  have hW : (wordSize : Int) = 18446744073709551616 := by norm_num [wordSize]
  have hWn : wordSize = 18446744073709551616 := by norm_num [wordSize]
  have hval : exec_per_sec h prev = wordSize - (prev - curr_exec_cnt h) := by
    rw [exec_per_sec, subWord, Nat.mod_eq_of_lt (by omega)]
    omega
  refine ⟨hval, by rw [hval]; omega, ?_⟩
  rw [hval, hW]
  have hcast : ((wordSize - (prev - curr_exec_cnt h) : Nat) : Int)
      = (wordSize : Int) - ((prev : Int) - (curr_exec_cnt h : Int)) := by
    push_cast [Nat.cast_sub (by omega : prev - curr_exec_cnt h ≤ wordSize),
      Nat.cast_sub (le_of_lt hlt)]
    ring
  rw [hcast, hW]
  omega

/-- Witness for C10: clamped count 5 (from `hBase`), stored previous count
10: the reported rate is `2^64 - 5`. -/
theorem rate_wraps_on_decrease_witness :
    curr_exec_cnt hBase < 10 ∧ (10 : Nat) < wordSize ∧
    exec_per_sec hBase 10 = wordSize - 5 ∧ 0 < exec_per_sec hBase 10 := by
  have := rate_wraps_on_decrease hBase 10 (by decide) (by decide)
  exact ⟨by decide, by decide, this.1, this.2.1⟩

/-! ### C6 -/

/-- C6: the average rate shown in the throughput line is 0 when the elapsed
time is 0 and `floor(clamped count / elapsed)` otherwise; the zero
denominator is handled by the ternary guard, not by a fault. -/
theorem avg_rate_total (now : Int) (sts : String) (h : Honggfuzz) (prev : Nat) :
    Frag.execsPerSec (exec_per_sec h prev) (avgExecPerSec now h)
      ∈ (display_displayLocked now sts h prev).frags ∧
    (elapsedOf now h = 0 → avgExecPerSec now h = 0) ∧
    (elapsedOf now h ≠ 0 →
      avgExecPerSec now h = curr_exec_cnt h / elapsedOf now h) := by
  refine ⟨execsPerSec_mem_frags now sts h prev, ?_, ?_⟩ <;>
    intro he <;> simp [avgExecPerSec, he]

/-- Witness for C6: elapsed 0 gives average 0; elapsed 5 gives `5 / 5 = 1`
at `hBase` (clamped count 5). -/
theorem avg_rate_total_witness :
    elapsedOf 0 hBase = 0 ∧ avgExecPerSec 0 hBase = 0 ∧
    elapsedOf 5 hBase = 5 ∧ avgExecPerSec 5 hBase = curr_exec_cnt hBase / 5 := by
  have h1 := avg_rate_total 0 "t" hBase 0
  have h2 := avg_rate_total 5 "t" hBase 0
  refine ⟨by decide, h1.2.1 (by decide), by decide, ?_⟩
  have := h2.2.2 (by decide)
  simpa using this

/-! ### C7 -/

/-- C7: the input-file-count line is emitted if and only if the randomized
flip rate is exactly zero and the verifier flag is enabled. -/
theorem input_files_line_iff (now : Int) (sts : String) (h : Honggfuzz)
    (prev : Nat) :
    (Frag.inputFiles h.fileCnt ∈ (display_displayLocked now sts h prev).frags)
      ↔ (h.flipRate = 0 ∧ h.useVerifier = true) := by
  simp only [display_displayLocked, display_frags]
  simp [mem_ite_nil]

/-! ### C3 -/

/-- A configuration exercising the spec scenario for software coverage:
coverage enabled with hit = 3, total = 1 blocks. -/
def hCov : Honggfuzz :=
  { hBase with useSanCov := true, sanCovCnts := ⟨3, 1, 0, 0, 0⟩ }

/-- C3 counterexample: at the minimal configuration `hBase` a render call
performs 12 separate writes (one per `display_put` call), not a single write
of the concatenated frame. -/
theorem single_write_per_frame_cex :
    (display_writes 0 "t" hBase 0).length = 12 ∧
    (display_writes 0 "t" hBase 0).length ≠ 1 := by
  decide

theorem flatMap_put_eq_filter (l : List Frag) :
    (l.flatMap fun f => display_put (Frag.render f))
      = (l.map Frag.render).filter (fun s => s.length != 0) := by
  induction l with
  | nil => rfl
  | cons a t ih =>
      rw [List.flatMap_cons, List.map_cons, List.filter_cons, ih]
      by_cases ha : (Frag.render a).length = 0
      · rw [display_put, if_pos ha]
        simp [ha]
      · rw [display_put, if_neg ha]
        simp [ha]

/-- C3 (amended): a render call emits one `write` per `display_put` call
whose formatted text is non-empty (so the frame is a sequence of writes, not
one write); the first write of every frame is exactly the
clear-and-home-cursor control sequence, and every frame comprises more than
one write. -/
theorem frame_write_structure (now : Int) (sts : String) (h : Honggfuzz)
    (prev : Nat) :
    display_writes now sts h prev
      = ((display_frags now sts h prev).map Frag.render).filter
          (fun s => s.length != 0) ∧
    (display_writes now sts h prev).head? = some ESC_CLEAR ∧
    1 < (display_writes now sts h prev).length := by
  have h1 : display_put ESC_CLEAR = [ESC_CLEAR] := by
    rw [display_put, if_neg (by decide)]
  have h2 : display_put (Frag.render Frag.statBanner)
      = [Frag.render Frag.statBanner] := by
    rw [display_put, if_neg (by decide)]
  refine ⟨flatMap_put_eq_filter _, ?_, ?_⟩
  · simp [display_writes, display_frags, List.flatMap_cons, Frag.render, h1]
  · simp [display_writes, display_frags, List.flatMap_cons, List.flatMap_append,
      Frag.render, h1, h2]
    left
    rw [display_put, if_neg (by decide)]
    decide

/-! ### C5 -/

/-- C5 counterexample: with software coverage enabled, hit = 3 and total = 1,
the render call displays coverage 44 — the `uint8_t` truncation of 300 — and
not `floor(3 * 100 / 1) = 300` as the claim states. -/
theorem coverage_percent_cex :
    covPercent 3 1 = 44 ∧ 3 * 100 / 1 = 300 ∧
    Frag.sanCovBB 3 44 ∈ (display_displayLocked 0 "t" hCov 0).frags ∧
    Frag.sanCovBB 3 300 ∉ (display_displayLocked 0 "t" hCov 0).frags := by
  decide

/-- C5 (amended): with software coverage enabled the coverage line shows
`covPercent hit total`; that value is 0 when the total block count is 0, it
equals `floor(hit * 100 / total)` whenever `hit * 100` fits in 64 bits and
that quotient fits the `uint8_t` conversion (below 256) — both guards are
needed: the `uint64_t` product can wrap (at hit = total = 2^63 the code
displays 0%, not 100%) and the `uint8_t` conversion can truncate — and for
every pair with hit ≤ total the displayed percentage lies in [0, 100]. -/
theorem coverage_percent_display (now : Int) (sts : String) (h : Honggfuzz)
    (prev : Nat) (hsc : h.useSanCov = true) :
    Frag.sanCovBB h.sanCovCnts.hitBBCnt
        (covPercent h.sanCovCnts.hitBBCnt h.sanCovCnts.totalBBCnt)
      ∈ (display_displayLocked now sts h prev).frags ∧
    (h.sanCovCnts.totalBBCnt = 0 →
      covPercent h.sanCovCnts.hitBBCnt h.sanCovCnts.totalBBCnt = 0) ∧
    (∀ hit total : Nat, total ≠ 0 → hit * 100 < wordSize →
      hit * 100 / total < 256 → covPercent hit total = hit * 100 / total) ∧
    (∀ hit total : Nat, hit ≤ total → covPercent hit total ≤ 100) := by
  refine ⟨?_, ?_, ?_, ?_⟩
  · simp only [display_displayLocked, display_frags]
    simp [hsc, sync_read_eq, mem_ite_nil]
  · intro h0
    simp [covPercent, h0]
  · intro hit total h0 hov hlt
    rw [covPercent, if_pos h0, Nat.mod_eq_of_lt hov, Nat.mod_eq_of_lt hlt]
  · intro hit total hle
    by_cases h0 : total = 0
    · simp [covPercent, h0]
    · have hq : hit * 100 % wordSize / total ≤ 100 := by
        calc hit * 100 % wordSize / total ≤ hit * 100 / total :=
              Nat.div_le_div_right (Nat.mod_le _ _)
          _ ≤ total * 100 / total := Nat.div_le_div_right (by omega)
          _ = 100 := Nat.mul_div_cancel_left 100 (by omega)
      calc covPercent hit total ≤ hit * 100 % wordSize / total := by
            rw [covPercent, if_pos h0]; exact Nat.mod_le _ _
        _ ≤ 100 := hq

/-- A configuration for the spec scenario: branch counting and software
coverage enabled, hit = 50, total = 200. -/
def hCov50 : Honggfuzz :=
  { hBase with
    dynFileMethod := _HF_DYNFILE_BRANCH_COUNT
    useSanCov := true
    sanCovCnts := ⟨50, 200, 1, 2, 0⟩ }

/-- Witness for C5 at the spec scenario (hit 50 of 200 blocks → 25%). -/
theorem coverage_percent_display_witness :
    hCov50.useSanCov = true ∧ covPercent 50 200 = 25 ∧
    Frag.sanCovBB 50 25 ∈ (display_displayLocked 0 "t" hCov50 0).frags ∧
    covPercent 50 200 = 50 * 100 / 200 ∧ covPercent 50 200 ≤ 100 := by
  have := coverage_percent_display 0 "t" hCov50 0 (by decide)
  exact ⟨by decide, by decide, by decide,
    this.2.2.1 50 200 (by decide) (by decide) (by decide),
    this.2.2.2 50 200 (by decide)⟩

/-! ### C4 -/

/-- How one read site of display.c accesses its object: with the atomic
`__sync_fetch_and_add(&x, 0UL)` read, or with a plain member dereference. -/
inductive AccessMode where
  | atomic
  | plain
deriving DecidableEq, Repr

/-- One counter read performed by `display_displayLocked`: the member read,
whether worker threads mutate it concurrently while the display runs, and
the primitive the source uses at that site.  The `sharedMutated` column is
modelled from the spec: the writers live outside src/, and the spec lists
the concurrently-mutated counters as the iteration count, the crash counts,
the timeout count, the dynamic-file size and expiry, and the hardware and
software coverage counter groups. -/
structure CounterRead where
  member : String
  sharedMutated : Bool
  mode : AccessMode
deriving DecidableEq, Repr

/-- The counter reads of `display_displayLocked`, in source order, with the
primitive used at each site (line numbers refer to src/display.c). -/
def displayCounterReads : List CounterRead :=
  [ ⟨"mutationsCnt", true, AccessMode.atomic⟩           -- line 64
  , ⟨"crashesCnt", true, AccessMode.atomic⟩             -- line 110
  , ⟨"uniqueCrashesCnt", true, AccessMode.atomic⟩       -- line 111
  , ⟨"blCrashesCnt", true, AccessMode.atomic⟩           -- line 112
  , ⟨"verifiedCrashesCnt", true, AccessMode.atomic⟩     -- line 113
  , ⟨"timeoutedCnt", true, AccessMode.atomic⟩           -- line 115
  , ⟨"dynamicFileBestSz", true, AccessMode.plain⟩       -- line 119: plain dereference
  , ⟨"maxFileSz", false, AccessMode.plain⟩              -- line 120: configuration value
  , ⟨"dynFileIterExpire", true, AccessMode.atomic⟩      -- line 123
  , ⟨"hwCnts.cpuInstrCnt", true, AccessMode.atomic⟩     -- line 130
  , ⟨"hwCnts.cpuBranchCnt", true, AccessMode.atomic⟩    -- line 134
  , ⟨"hwCnts.cpuBtsBlockCnt", true, AccessMode.atomic⟩  -- line 138
  , ⟨"hwCnts.cpuBtsEdgeCnt", true, AccessMode.atomic⟩   -- line 142
  , ⟨"hwCnts.cpuIptBlockCnt", true, AccessMode.atomic⟩  -- line 146
  , ⟨"hwCnts.customCnt", true, AccessMode.atomic⟩       -- line 150
  , ⟨"sanCovCnts.hitBBCnt", true, AccessMode.atomic⟩    -- line 155
  , ⟨"sanCovCnts.totalBBCnt", true, AccessMode.atomic⟩  -- line 156
  , ⟨"sanCovCnts.iDsoCnt", true, AccessMode.atomic⟩     -- line 161
  , ⟨"sanCovCnts.newBBCnt", true, AccessMode.atomic⟩    -- line 163
  , ⟨"sanCovCnts.crashesCnt", true, AccessMode.atomic⟩  -- line 165
  ]

/-- C4 counterexample: not every read of a concurrently-mutated counter uses
the atomic primitive — the read of the dynamic-file size
(`dynamicFileBestSz`, display.c line 119) is a plain dereference. -/
theorem atomic_reads_cex :
    ¬ (∀ r ∈ displayCounterReads,
        r.sharedMutated = true → r.mode = AccessMode.atomic) := by
  decide

/-- C4 (amended): every read of a concurrently-mutated shared counter other
than the dynamic-file size (`dynamicFileBestSz`, read with a plain
dereference at line 119) is performed with the atomic non-blocking
`__sync_fetch_and_add(_, 0)` read; no read takes a lock (no lock exists in
this code). -/
theorem atomic_reads_except_dynamic_size :
    ∀ r ∈ displayCounterReads, r.sharedMutated = true →
      r.member ≠ "dynamicFileBestSz" → r.mode = AccessMode.atomic := by
  decide

/-- Witness for C4 (amended) at the iteration-counter read site. -/
theorem atomic_reads_except_dynamic_size_witness :
    (⟨"mutationsCnt", true, AccessMode.atomic⟩ : CounterRead).mode
      = AccessMode.atomic :=
  atomic_reads_except_dynamic_size ⟨"mutationsCnt", true, AccessMode.atomic⟩
    (by decide) (by decide) (by decide)

/-! ### C8 -/

/-- Representation bounds of the counters the call reads atomically: each is
a 64-bit unsigned object in the C program, so its value is below 2^64. -/
def CounterBounds (h : Honggfuzz) : Prop :=
  h.mutationsCnt < wordSize ∧ h.crashesCnt < wordSize ∧
  h.uniqueCrashesCnt < wordSize ∧ h.blCrashesCnt < wordSize ∧
  h.verifiedCrashesCnt < wordSize ∧ h.timeoutedCnt < wordSize ∧
  h.dynFileIterExpire < wordSize ∧
  h.hwCnts.cpuInstrCnt < wordSize ∧ h.hwCnts.cpuBranchCnt < wordSize ∧
  h.hwCnts.cpuBtsBlockCnt < wordSize ∧ h.hwCnts.cpuBtsEdgeCnt < wordSize ∧
  h.hwCnts.cpuIptBlockCnt < wordSize ∧ h.hwCnts.customCnt < wordSize ∧
  h.sanCovCnts.hitBBCnt < wordSize ∧ h.sanCovCnts.totalBBCnt < wordSize ∧
  h.sanCovCnts.iDsoCnt < wordSize ∧ h.sanCovCnts.newBBCnt < wordSize ∧
  h.sanCovCnts.crashesCnt < wordSize

instance (h : Honggfuzz) : Decidable (CounterBounds h) := by
  unfold CounterBounds
  infer_instance

/-- C8: a render call leaves every field of the shared campaign state
unchanged (each atomic read stores back exactly the value it read, and
nothing else is written), and the only state it changes is the render-local
stored previous iteration count, which becomes the clamped current count. -/
theorem render_mutates_only_prev (now : Int) (sts : String) (h : Honggfuzz)
    (prev : Nat) (hb : CounterBounds h) :
    (display_displayLocked now sts h prev).hfuzz = h ∧
    (display_displayLocked now sts h prev).prev_exec_cnt = curr_exec_cnt h := by
  obtain ⟨b1, b2, b3, b4, b5, b6, b7, b8, b9, b10, b11, b12, b13, b14, b15,
    b16, b17, b18⟩ := hb
  refine ⟨?_, rfl⟩
  simp [display_displayLocked, display_postHfuzz, sync_store_eq,
    b1, b2, b3, b4, b5, b6, b7, b8, b9, b10, b11, b12, b13, b14, b15, b16,
    b17, b18]

/-- Witness for C8 at the capped configuration `hCap`. -/
theorem render_mutates_only_prev_witness :
    CounterBounds hCap ∧
    (display_displayLocked 7 "t" hCap 0).hfuzz = hCap ∧
    (display_displayLocked 7 "t" hCap 0).prev_exec_cnt = curr_exec_cnt hCap := by
  have := render_mutates_only_prev 7 "t" hCap 0 (by decide)
  exact ⟨by decide, this.1, this.2⟩
